import Mathlib

/-!
Shallow embedding of the creative-production pipeline
(`mode_system.py`, `creative_director.py`): the mode catalog, the
mode-to-job-schema compiler, the campaign runner, and the metadata
writer, together with theorems settling the specification claims.
-/

namespace CreativePipeline

/-- A value stored in a job input map (Python dict values used by the
source: strings, integers, and the occasional decimal literal). -/
inductive Value where
  | str (s : String)
  | int (n : Int)
  | rat (q : Rat)
  deriving DecidableEq, Repr

/-- `startsWithChars pat cs` : `cs` begins with the characters `pat`. -/
def startsWithChars : List Char → List Char → Bool
  | [], _ => true
  | _ :: _, [] => false
  | p :: ps, c :: cs => p == c && startsWithChars ps cs

/-- Does `pat` occur as a contiguous run inside `cs`? -/
def hasSubChars (pat : List Char) : List Char → Bool
  | [] => startsWithChars pat []
  | c :: cs => startsWithChars pat (c :: cs) || hasSubChars pat cs

/-- Python's substring test `pat in s`. -/
def strContains (s pat : String) : Bool := hasSubChars pat.data s.data

/-- Python's `s.startswith(pre)` (used to state the concrete scenario claim). -/
def startsWithB (s pre : String) : Bool := startsWithChars pre.data s.data

/-- Python's `s.endswith(suf)` (used to state the concrete scenario claim). -/
def endsWithB (s suf : String) : Bool := startsWithChars suf.data.reverse s.data.reverse

/-- Python truthiness of an optional string argument (`None` and `""` are falsy). -/
def pyTruthy : Option String → Bool
  | none => false
  | some s => !(s == "")

/-- The `preferred_models` dict of a mode; every mode literal in
`mode_system.py` defines exactly the keys `image`, `video`, `audio`. -/
structure PreferredModels where
  image : String
  video : String
  audio : String
  deriving DecidableEq, Repr

/-- `ModeConfig` dataclass from `mode_system.py`. -/
structure ModeConfig where
  name : String
  description : String
  studio_inspiration : String
  prompt_kernel : String
  negative_prompt : String
  color_palette : List String
  motion_style : String
  audio_character : String
  preferred_models : PreferredModels
  quality_settings : List (String × Value)
  deriving DecidableEq, Repr

/-- `CreativeMode` wraps a `ModeConfig` (class `CreativeMode`). -/
structure CreativeMode where
  config : ModeConfig
  deriving DecidableEq, Repr

/-- `quality_settings.get(key, default)`. -/
def qget (qs : List (String × Value)) (k : String) (d : Value) : Value :=
  (List.lookup k qs).getD d

/-- Result of `CreativeMode.get_image_prompt`. -/
structure ImageParams where
  prompt : String
  negative_prompt : String
  guidance_scale : Value
  num_inference_steps : Value

/-- Result of `CreativeMode.get_video_prompt`. -/
structure VideoParams where
  prompt : String
  fps : Value
  num_frames : Value

/-- Result of `CreativeMode.get_audio_prompt`. -/
structure AudioParams where
  prompt : String
  duration : Value

/-- `CreativeMode.get_image_prompt` from `mode_system.py`. -/
def CreativeMode.get_image_prompt (m : CreativeMode) (base_prompt : String) : ImageParams :=
  { prompt := base_prompt ++ ", " ++ m.config.prompt_kernel
    negative_prompt := m.config.negative_prompt
    guidance_scale := qget m.config.quality_settings "guidance" (.rat (15 / 2))
    num_inference_steps := qget m.config.quality_settings "steps" (.int 30) }

/-- `CreativeMode.get_video_prompt` from `mode_system.py`. -/
def CreativeMode.get_video_prompt (m : CreativeMode) (base_prompt : String) : VideoParams :=
  { prompt := base_prompt ++ ", " ++ m.config.motion_style
    fps := qget m.config.quality_settings "fps" (.int 8)
    num_frames := qget m.config.quality_settings "frames" (.int 24) }

/-- `CreativeMode.get_audio_prompt` from `mode_system.py`. -/
def CreativeMode.get_audio_prompt (m : CreativeMode) (base_prompt : String) : AudioParams :=
  { prompt := base_prompt ++ ", " ++ m.config.audio_character
    duration := qget m.config.quality_settings "audio_duration" (.int 10) }

/-- The `StudioModes` registry: an insertion-ordered association of mode
names to modes (`self.modes` dict). -/
structure StudioModes where
  modes : List (String × CreativeMode)
  deriving Repr

/-- Mode 1 of `StudioModes._initialize_modes`. -/
def parallax_nocturne_mode : CreativeMode :=
  { config :=
    { name := "Parallax Nocturne"
      description := "Deep parallax motion with nocturnal aesthetic"
      studio_inspiration := "Locomotive (Montreal)"
      prompt_kernel := "deep parallax layers, nocturnal palette, cinematic depth of field, premium motion design, smooth camera movements, professional color grading, high-end commercial aesthetic"
      negative_prompt := "flat composition, harsh daylight, amateur, static, low quality, watermark"
      color_palette := ["#1a1a2e", "#0f0f1e", "#232347", "#5c5c8a", "#9999ff"]
      motion_style := "smooth parallax scrolling, depth-based motion, professional easing curves"
      audio_character := "atmospheric, deep bass, cinematic ambience, subtle motion sounds"
      preferred_models := { image := "flux_dev", video := "cogvideox", audio := "musicgen" }
      quality_settings :=
        [("steps", .int 50), ("guidance", .int 12), ("fps", .int 24),
         ("frames", .int 48), ("audio_duration", .int 15)] } }

/-- Mode 2 of `StudioModes._initialize_modes`. -/
def rust_luxe_baroque_mode : CreativeMode :=
  { config :=
    { name := "Rust-Luxe Baroque"
      description := "Decayed opulence meets modern luxury"
      studio_inspiration := "Studio Blup (São Paulo)"
      prompt_kernel := "rust texture over gold leaf, baroque ornamental details, luxury brand aesthetic, decaying opulence, high fashion photography, editorial lighting, premium materials, weathered elegance"
      negative_prompt := "cheap, plastic, new, pristine, amateur photography, flat lighting"
      color_palette := ["#8B4513", "#DAA520", "#2F4F4F", "#8B7355", "#CD853F"]
      motion_style := "slow reveal, texture focus, luxury brand pacing"
      audio_character := "orchestral with industrial undertones, premium sound design"
      preferred_models := { image := "seedream", video := "svd", audio := "riffusion" }
      quality_settings :=
        [("steps", .int 60), ("guidance", .int 15), ("fps", .int 30),
         ("frames", .int 60), ("audio_duration", .int 20)] } }

/-- Mode 3 of `StudioModes._initialize_modes`. -/
def kinetic_typography_mode : CreativeMode :=
  { config :=
    { name := "Kinetic Typography"
      description := "Dynamic text as primary visual element"
      studio_inspiration := "Obys Agency (Kyiv)"
      prompt_kernel := "bold typographic design, kinetic text animation, Swiss design principles, dynamic letter forms, professional typography, grid-based layout, motion graphics, clean minimalism"
      negative_prompt := "handwritten, comic sans, amateur fonts, cluttered, no text"
      color_palette := ["#000000", "#FFFFFF", "#FF0000", "#0000FF", "#FFFF00"]
      motion_style := "text-driven animation, letter morphing, typographic rhythm"
      audio_character := "rhythmic, percussive, synchronized to text motion"
      preferred_models := { image := "ideogram", video := "animatediff", audio := "musicgen" }
      quality_settings :=
        [("steps", .int 40), ("guidance", .int 10), ("fps", .int 30),
         ("frames", .int 90), ("audio_duration", .int 10)] } }

/-- Mode 4 of `StudioModes._initialize_modes`. -/
def webgl_dreams_mode : CreativeMode :=
  { config :=
    { name := "WebGL Dreams"
      description := "3D web-native aesthetic with shader-like effects"
      studio_inspiration := "Immersive Garden (Paris)"
      prompt_kernel := "WebGL aesthetic, shader effects, 3D rendered, metallic reflections, iridescent surfaces, particle systems, real-time rendering look, interactive design aesthetic, GPU-accelerated visuals"
      negative_prompt := "flat 2D, no depth, static image, print design, low poly"
      color_palette := ["#00FFFF", "#FF00FF", "#7B68EE", "#4169E1", "#9370DB"]
      motion_style := "3D camera movements, shader animations, particle effects"
      audio_character := "electronic, generative, interactive sound design"
      preferred_models := { image := "flux_dev", video := "zeroscope", audio := "riffusion" }
      quality_settings :=
        [("steps", .int 45), ("guidance", .int 11), ("fps", .int 60),
         ("frames", .int 120), ("audio_duration", .int 12)] } }

/-- Mode 5 of `StudioModes._initialize_modes`. -/
def mineral_futurism_mode : CreativeMode :=
  { config :=
    { name := "Mineral Futurism"
      description := "Geological textures meet sci-fi aesthetics"
      studio_inspiration := "Buck Design (LA/NYC)"
      prompt_kernel := "crystalline structures, mineral formations, futuristic materials, geometric patterns, refractive surfaces, scientific visualization, premium 3D rendering, subsurface scattering"
      negative_prompt := "organic, soft, natural, vintage, hand-drawn"
      color_palette := ["#4A90E2", "#7FFF00", "#FF1493", "#00CED1", "#FFD700"]
      motion_style := "crystal growth animation, refractive light play, geometric transitions"
      audio_character := "crystalline tones, synthetic textures, future ambient"
      preferred_models := { image := "seedream", video := "cogvideox", audio := "musicgen" }
      quality_settings :=
        [("steps", .int 55), ("guidance", .int 13), ("fps", .int 24),
         ("frames", .int 48), ("audio_duration", .int 18)] } }

/-- Mode 6 of `StudioModes._initialize_modes`. -/
def soft_brutalism_mode : CreativeMode :=
  { config :=
    { name := "Soft Brutalism"
      description := "Monolithic forms with unexpected softness"
      studio_inspiration := "Resn (Wellington)"
      prompt_kernel := "brutalist architecture, soft gradient overlays, massive concrete forms, pastel color washes, monolithic structures, architectural photography, soft lighting on hard surfaces"
      negative_prompt := "ornate, decorated, busy, natural materials, wood, plants"
      color_palette := ["#C0C0C0", "#FFB6C1", "#E6E6FA", "#F0E68C", "#D3D3D3"]
      motion_style := "slow architectural reveals, light play on concrete, subtle gradient shifts"
      audio_character := "ambient reverb, spatial audio, architectural acoustics"
      preferred_models := { image := "flux_schnell", video := "svd", audio := "riffusion" }
      quality_settings :=
        [("steps", .int 50), ("guidance", .int 12), ("fps", .int 12),
         ("frames", .int 36), ("audio_duration", .int 25)] } }

/-- The registry built by `StudioModes.__init__` (insertion order of
`_initialize_modes`). -/
def studio_modes_init : StudioModes :=
  { modes :=
    [("parallax_nocturne", parallax_nocturne_mode),
     ("rust_luxe_baroque", rust_luxe_baroque_mode),
     ("kinetic_typography", kinetic_typography_mode),
     ("webgl_dreams", webgl_dreams_mode),
     ("mineral_futurism", mineral_futurism_mode),
     ("soft_brutalism", soft_brutalism_mode)] }

/-- `StudioModes.get_mode`: `self.modes.get(mode_name)`. -/
def StudioModes.get_mode (s : StudioModes) (mode_name : String) : Option CreativeMode :=
  List.lookup mode_name s.modes

/-- `StudioModes.list_modes`: `list(self.modes.keys())`. -/
def StudioModes.list_modes (s : StudioModes) : List String :=
  s.modes.map Prod.fst

/-- One entry of a job schema: `{model: ..., input: {...}}`. -/
structure Job where
  model : String
  input : List (String × Value)
  deriving DecidableEq, Repr

/-- `ReplicateOrchestrator.prepare_image_job` from `mode_system.py`:
model-family dispatch on the mode's preferred image model name. -/
def prepare_image_job (mode : CreativeMode) (prompt : String) ( aspect_ratio : String) : Job :=
  let params := mode.get_image_prompt prompt
  let model := mode.config.preferred_models.image
  if strContains model "flux" then
    { model := model
      input :=
        [("prompt", .str params.prompt),
         ("num_outputs", .int 1),
         ("aspect_ratio", .str aspect_ratio),
         ("output_format", .str "png"),
         ("output_quality", .int 95),
         ("guidance", params.guidance_scale),
         ("num_inference_steps", params.num_inference_steps)] }
  else if strContains model "seedream" || strContains model "ideogram" then
    { model := model
      input :=
        [("prompt", .str params.prompt),
         ("negative_prompt", .str params.negative_prompt),
         ("width", .int 1024),
         ("height", .int 1024),
         ("num_outputs", .int 1),
         ("guidance_scale", params.guidance_scale),
         ("num_inference_steps", params.num_inference_steps)] }
  else
    { model := "stability-ai/sdxl"
      input :=
        [("prompt", .str params.prompt),
         ("negative_prompt", .str params.negative_prompt),
         ("width", .int 1024),
         ("height", .int 1024),
         ("num_outputs", .int 1),
         ("guidance_scale", params.guidance_scale),
         ("num_inference_steps", params.num_inference_steps)] }

/-- `ReplicateOrchestrator.prepare_video_job` from `mode_system.py`.
Both arguments default to `None` in the source; callers here pass them
explicitly. -/
def prepare_video_job (mode : CreativeMode) (prompt : Option String)
    (image_url : Option String) : Job :=
  let params := mode.get_video_prompt (if pyTruthy prompt then prompt.getD "" else "")
  let model := mode.config.preferred_models.video
  if strContains model "cogvideox" && pyTruthy prompt then
    { model := model
      input :=
        [("prompt", .str params.prompt),
         ("num_frames", params.num_frames),
         ("fps", params.fps),
         ("guidance_scale", .int 7),
         ("num_inference_steps", .int 50)] }
  else if strContains model "svd" && pyTruthy image_url then
    { model := model
      input :=
        [("input_image", .str (image_url.getD "")),
         ("video_length", .str "25_frames"),
         ("sizing_strategy", .str "maintain_aspect_ratio"),
         ("frames_per_second", params.fps),
         ("motion_bucket_id", .int 127)] }
  else
    { model := "anotherjesse/zeroscope-v2-xl"
      input :=
        [("prompt", .str params.prompt),
         ("width", .int 1024),
         ("height", .int 576),
         ("num_frames", params.num_frames),
         ("fps", params.fps)] }

/-- `ReplicateOrchestrator.prepare_audio_job` from `mode_system.py`. -/
def prepare_audio_job (mode : CreativeMode) (prompt : String) : Job :=
  let params := mode.get_audio_prompt prompt
  let model := mode.config.preferred_models.audio
  if strContains model "musicgen" then
    { model := "meta/musicgen"
      input :=
        [("prompt", .str params.prompt),
         ("duration", params.duration),
         ("temperature", .rat (4 / 5)),
         ("top_k", .int 250),
         ("top_p", .rat (9 / 10))] }
  else
    { model := "riffusion/riffusion"
      input :=
        [("prompt_a", .str params.prompt),
         ("denoising", .rat (3 / 4)),
         ("seed_image_id", .str "vibes")] }

/-- The `ValueError` raised by `create_job_schema` on an unknown mode name. -/
inductive CompileError where
  | UnknownMode (mode_name : String)
  deriving DecidableEq, Repr

/-- The `meta` block of a job schema. -/
structure SchemaMeta where
  mode : String
  product : String
  description : String
  studio_inspiration : String
  deriving DecidableEq, Repr

/-- A compiled job schema: `{meta: ..., jobs: {...}}`, jobs in insertion order. -/
structure JobSchema where
  meta : SchemaMeta
  jobs : List (String × Job)
  deriving DecidableEq, Repr

/-- `create_job_schema` from `mode_system.py`: resolve the mode, fail with
the `ValueError` on an unknown name, otherwise build the five jobs. -/
def create_job_schema (mode_name product_name product_desc : String) :
    Except CompileError JobSchema :=
  let studio_modes := studio_modes_init
  match studio_modes.get_mode mode_name with
  | none => .error (.UnknownMode mode_name)
  | some mode =>
    .ok
      { meta :=
        { mode := mode_name
          product := product_name
          description := product_desc
          studio_inspiration := mode.config.studio_inspiration }
        jobs :=
          [("hero_image",
              prepare_image_job mode
                (product_name ++ " product hero shot, " ++ product_desc) "16:9"),
           ("detail_shot",
              prepare_image_job mode
                (product_name ++ " detail close-up, premium product photography, " ++ product_desc)
                "1:1"),
           ("lifestyle_shot",
              prepare_image_job mode
                (product_name ++ " in use, lifestyle photography, " ++ product_desc) "4:3"),
           ("hero_video",
              prepare_video_job mode
                (some (product_name ++ " cinematic reveal, " ++ product_desc)) none),
           ("soundtrack",
              prepare_audio_job mode
                ("product launch music for " ++ product_name ++ ", " ++
                  mode.config.audio_character))] }

/-! ## Campaign runner (`CreativeDirector._create_mode_campaign`) -/

/-- The outcome of one `replicate.run` call as the runner observes it:
a truthy result already normalized to a string reference (the source
takes `output[0]` for lists and `str(output)` otherwise), a falsy
result, or a raised exception with its message. -/
inductive InvokeResult where
  | ok (ref : String)
  | falsy
  | exn (msg : String)
  deriving DecidableEq, Repr

/-- The remote-inference capability: `invoke(model_id, input) -> result`. -/
def Oracle := String → List (String × Value) → InvokeResult

/-- One entry of `results['images']`: `{url, type, prompt}`. -/
structure ImageRecord where
  url : String
  type : String
  prompt : String
  deriving DecidableEq, Repr

/-- The `results` accumulator of `_create_mode_campaign`. -/
structure CampaignResult where
  mode : String
  product : String
  description : String
  studio_inspiration : String
  images : List ImageRecord
  video : Option String
  audio : Option String
  timestamp : Int
  deriving DecidableEq, Repr

/-- One `replicate.run` call made during a run, in order. -/
structure Invocation where
  job_name : String
  model : String
  input : List (String × Value)
  deriving DecidableEq, Repr

/-- A finished run: the accumulated result, the sequence of remote
invocations made, and the per-job console record (job label, message). -/
structure RunOutput where
  result : CampaignResult
  trace : List Invocation
  log : List (String × String)
  deriving DecidableEq, Repr

/-- `job_config['input'].get('prompt', '')`; every `prompt` value placed in
an input map by this code is a string. -/
def inputGetPrompt (input : List (String × Value)) : String :=
  match List.lookup "prompt" input with
  | some (.str s) => s
  | _ => ""

/-- Python dict assignment `d[k] = v`: replace an existing binding in
place, else append. -/
def setKey (m : List (String × Value)) (k : String) (v : Value) :
    List (String × Value) :=
  if m.any (fun kv => kv.1 == k) then
    m.map (fun kv => if kv.1 == k then (k, v) else kv)
  else m ++ [(k, v)]

/-- The image loop of `_create_mode_campaign` (lines 363-384): iterate the
schema's jobs in insertion order, invoke exactly those whose *name*
contains the substring `"image"`, record successes in `results['images']`,
catch exceptions and keep going. Returns
(image records, invocations made, console record). -/
def runImageJobs (invoke : Oracle) :
    List (String × Job) → List ImageRecord × List Invocation × List (String × String)
  | [] => ([], [], [])
  | (job_name, job_config) :: rest =>
    if strContains job_name "image" then
      let inv : Invocation := ⟨job_name, job_config.model, job_config.input⟩
      let r := runImageJobs invoke rest
      match invoke job_config.model job_config.input with
      | .ok url =>
        (⟨url, job_name, inputGetPrompt job_config.input⟩ :: r.1,
         inv :: r.2.1, (job_name, "✅") :: r.2.2)
      | .falsy => (r.1, inv :: r.2.1, (job_name, "❌") :: r.2.2)
      | .exn msg =>
        (r.1, inv :: r.2.1, (job_name, "❌ (" ++ msg.take 30 ++ "...)") :: r.2.2)
    else runImageJobs invoke rest

/-- The video block of `_create_mode_campaign` (lines 386-405): when video
is requested and the schema has a `hero_video` job, substitute the first
recorded image's url into `input_image` when the job's model name contains
`"svd"` and at least one image was recorded, then invoke; an exception is
caught and logged, a falsy result leaves `results['video']` as `None`. -/
def runVideoJob (invoke : Oracle) (jobs : List (String × Job))
    (include_video : Bool) (images : List ImageRecord) :
    Option String × List Invocation × List (String × String) :=
  if include_video then
    match List.lookup "hero_video" jobs with
    | none => (none, [], [])
    | some video_job =>
      let vinput :=
        if strContains video_job.model "svd" && !images.isEmpty then
          setKey video_job.input "input_image"
            (.str ((images.headD ⟨"", "", ""⟩).url))
        else video_job.input
      let inv : Invocation := ⟨"hero_video", video_job.model, vinput⟩
      match invoke video_job.model vinput with
      | .ok ref => (some ref, [inv], [("hero_video", "✅ Video generated!")])
      | .falsy => (none, [inv], [])
      | .exn msg => (none, [inv], [("hero_video", "❌ Video failed: " ++ msg)])
  else (none, [], [])

/-- The audio block of `_create_mode_campaign` (lines 407-421). -/
def runAudioJob (invoke : Oracle) (jobs : List (String × Job)) :
    Option String × List Invocation × List (String × String) :=
  match List.lookup "soundtrack" jobs with
  | none => (none, [], [])
  | some audio_job =>
    let inv : Invocation := ⟨"soundtrack", audio_job.model, audio_job.input⟩
    match invoke audio_job.model audio_job.input with
    | .ok ref => (some ref, [inv], [("soundtrack", "✅ Soundtrack generated!")])
    | .falsy => (none, [inv], [])
    | .exn msg => (none, [inv], [("soundtrack", "❌ Audio failed: " ++ msg)])

/-- Execution of a compiled schema by `_create_mode_campaign`: image loop,
then the video block, then the audio block. -/
def executeSchema (schema : JobSchema) (include_video : Bool) (invoke : Oracle)
    (timestamp : Int) : RunOutput :=
  let ir := runImageJobs invoke schema.jobs
  let vr := runVideoJob invoke schema.jobs include_video ir.1
  let ar := runAudioJob invoke schema.jobs
  { result :=
    { mode := schema.meta.mode
      product := schema.meta.product
      description := schema.meta.description
      studio_inspiration := schema.meta.studio_inspiration
      images := ir.1
      video := vr.1
      audio := ar.1
      timestamp := timestamp }
    trace := ir.2.1 ++ vr.2.1 ++ ar.2.1
    log := ir.2.2 ++ vr.2.2 ++ ar.2.2 }

/-- `CreativeDirector._create_mode_campaign` for a known mode: compile the
schema and execute it (the source falls back to the legacy brief system
when the mode is unknown, which is outside the mode pipeline: `none`). -/
def run_mode_campaign (mode_name product_name product_desc : String)
    (include_video : Bool) (invoke : Oracle) (timestamp : Int) : Option RunOutput :=
  match create_job_schema mode_name product_name product_desc with
  | .error _ => none
  | .ok schema => some (executeSchema schema include_video invoke timestamp)

/-! ## Metadata writer (`CreativeDirector._save_mode_campaign`) -/

/-- The JSON document model for the persisted metadata file. -/
inductive Json where
  | null
  | str (s : String)
  | int (n : Int)
  | arr (xs : List Json)
  | obj (fields : List (String × Json))

/-- One image record as serialized into `campaign_metadata.json`. -/
def imageRecordJson (r : ImageRecord) : Json :=
  .obj [("url", .str r.url), ("type", .str r.type), ("prompt", .str r.prompt)]

/-- `None` serializes to `null`, a string to itself. -/
def optStrJson : Option String → Json
  | none => .null
  | some s => .str s

/-- The `mode_config` provenance block of `_save_mode_campaign`. -/
def modeConfigJson (c : ModeConfig) : Json :=
  .obj
    [("name", .str c.name),
     ("description", .str c.description),
     ("studio_inspiration", .str c.studio_inspiration),
     ("color_palette", .arr (c.color_palette.map Json.str)),
     ("preferred_models",
       .obj
         [("image", .str c.preferred_models.image),
          ("video", .str c.preferred_models.video),
          ("audio", .str c.preferred_models.audio)])]

/-- The metadata object written by `_save_mode_campaign`:
`{**results, 'mode_config': {...}}`. -/
def save_mode_campaign_metadata (results : CampaignResult) (mode : CreativeMode) : Json :=
  .obj
    [("mode", .str results.mode),
     ("product", .str results.product),
     ("description", .str results.description),
     ("studio_inspiration", .str results.studio_inspiration),
     ("images", .arr (results.images.map imageRecordJson)),
     ("video", optStrJson results.video),
     ("audio", optStrJson results.audio),
     ("timestamp", .int results.timestamp),
     ("mode_config", modeConfigJson mode.config)]

/-- Field lookup in a JSON object (what `json.load` consumers do). -/
def jsonLookup (j : Json) (k : String) : Option Json :=
  match j with
  | .obj fields => List.lookup k fields
  | _ => none

/-- Read one image record back from its JSON form. -/
def readImageRecord : Json → Option ImageRecord
  | .obj fields =>
    match List.lookup "url" fields, List.lookup "type" fields,
        List.lookup "prompt" fields with
    | some (.str u), some (.str t), some (.str p) => some ⟨u, t, p⟩
    | _, _, _ => none
  | _ => none

/-- Read a list of image records back, in order. -/
def readImageList : List Json → Option (List ImageRecord)
  | [] => some []
  | j :: js =>
    match readImageRecord j, readImageList js with
    | some r, some rs => some (r :: rs)
    | _, _ => none

/-- Read the `images` field of the metadata document. -/
def readImages (j : Json) : Option (List ImageRecord) :=
  match jsonLookup j "images" with
  | some (.arr xs) => readImageList xs
  | _ => none

/-- Read a nullable string field (`video` / `audio`) of the metadata
document: `null` is preserved as the absent reference. -/
def readOptStr (j : Json) (k : String) : Option (Option String) :=
  match jsonLookup j k with
  | some .null => some none
  | some (.str s) => some (some s)
  | _ => none

/-! ## Auxiliary definitions used by the claim statements -/

/-- Python `k in input` on a job input map (key presence). -/
def hasKeyB (m : List (String × Value)) (k : String) : Bool :=
  m.any (fun kv => kv.1 == k)

/-- `pat` occurs (at least) twice in `s`, as two disjoint occurrences. -/
def occursTwice (s pat : String) : Prop :=
  ∃ a b c, s = a ++ (pat ++ (b ++ (pat ++ c)))

/-- The job names of the invocations a run actually made, in order. -/
def traceNames (o : RunOutput) : List String :=
  o.trace.map Invocation.job_name

/-- `CreativeDirector.__init__`'s `self.models` table: the resolution of
model-family keys to full hosted-model identifiers (`creative_director.py`,
lines 31-53). `create_job_schema` never consults it. -/
def creative_director_models : List (String × String) :=
  [("seedream", "bytedance/seedream-3"),
   ("flux_schnell", "black-forest-labs/flux-schnell"),
   ("ideogram", "ideogram-ai/ideogram-v3-turbo"),
   ("recraft_svg", "recraft-ai/recraft-v3-svg"),
   ("flux_dev", "black-forest-labs/flux-dev"),
   ("sdxl", "stability-ai/sdxl:39ed52f2a78e934b3ba6e2a89f5b1c712de7dfea535525255b1aa35c5565e08b"),
   ("playground", "playgroundai/playground-v2.5-1024px-aesthetic:42fe626e41cc811eaf02c94b892774839268ce1994ea778eba97103fe1ef51b8"),
   ("svd", "stability-ai/stable-video-diffusion:3f0457e4619daac51203dedb472816fd4af51f3149fa7a9e0b5ffcf1b8172438"),
   ("cogvideox", "fofr/cogvideox-5b:70e0d70174e00dce12207c7e015c5fb09e957ac5a8b0e5f7a04f2ac18009e519"),
   ("zeroscope", "anotherjesse/zeroscope-v2-xl:9f747673945c62801b13b84701c783929c0ee784e4748ec062204894dda1a351"),
   ("animatediff", "lucataco/animate-diff:1531004ee4c98894ab11f8a4ce6206099e732c1da15121987a8eef54828f0663"),
   ("i2vgen", "ali-vilab/i2vgen-xl:5821a9d7c4b8a76ae89cf942779b41abaf377cd018bff9ccbd00d2b9c92bf0f0"),
   ("riffusion", "riffusion/riffusion:8cf61ea6c56afd61d8f5b9ffd14d7c216c0a93844ce2d82ac1c9ecc9c7f24e05"),
   ("musicgen", "meta/musicgen:671ac645ce5e552cc63a54a2bbff63fcf798043055d2dac5fc9e36a837eedcfb")]

/-- A remote capability for which every call succeeds. -/
def allOkOracle : Oracle := fun _ _ => .ok "https://example.com/asset"

/-- A remote capability for which every call raises. -/
def failAllOracle : Oracle := fun _ _ => .exn "io error"

/-- A remote capability that raises for the `flux_dev` image model and
succeeds for everything else. -/
def failHeroOracle : Oracle := fun model _ =>
  if model == "flux_dev" then .exn "boom" else .ok "https://example.com/asset"

/-- A remote capability that returns a falsy value for the `meta/musicgen`
audio model and succeeds for everything else. -/
def falsySoundtrackOracle : Oracle := fun model _ =>
  if model == "meta/musicgen" then .falsy else .ok "https://example.com/asset"

/-- The image record `headD` fallback (never used on a nonempty list). -/
def emptyImageRecord : ImageRecord := ⟨"", "", ""⟩

/-- A minimal schema whose `hero_video` job is image-conditioned (model
name containing `"svd"`, an `input_image` placeholder in its input) — the
shape the specification says compilation produces for svd modes. Used to
exercise the runner's video-dependency handling in isolation. -/
def svdDemoSchema : JobSchema :=
  { meta :=
    { mode := "rust_luxe_baroque"
      product := "HaloOne"
      description := "wireless headphones"
      studio_inspiration := "Studio Blup (São Paulo)" }
    jobs :=
      [("hero_image", ⟨"seedream", [("prompt", .str "HaloOne product hero shot")]⟩),
       ("hero_video",
         ⟨"svd",
          [("input_image", .str ""),
           ("video_length", .str "25_frames"),
           ("sizing_strategy", .str "maintain_aspect_ratio"),
           ("frames_per_second", .int 30),
           ("motion_bucket_id", .int 127)]⟩),
       ("soundtrack", ⟨"riffusion/riffusion", [("prompt_a", .str "launch music")]⟩)] }

/-- The `hero_video` job of `svdDemoSchema`. -/
def svdDemoVideoJob : Job :=
  ⟨"svd",
   [("input_image", .str ""),
    ("video_length", .str "25_frames"),
    ("sizing_strategy", .str "maintain_aspect_ratio"),
    ("frames_per_second", .int 30),
    ("motion_bucket_id", .int 127)]⟩

/-- The schema compiled for the parallax-nocturne HaloOne campaign, used
as a concrete execution fixture. -/
def parallaxSchema : JobSchema :=
  match create_job_schema "parallax_nocturne" "HaloOne" "wireless headphones" with
  | .ok s => s
  | .error _ => ⟨⟨"", "", "", ""⟩, []⟩

/-- The schema compiled for the rust-luxe-baroque HaloOne campaign (an
svd-preferring mode), used as a concrete compilation fixture. -/
def rustLuxeSchema : JobSchema :=
  match create_job_schema "rust_luxe_baroque" "HaloOne" "wireless headphones" with
  | .ok s => s
  | .error _ => ⟨⟨"", "", "", ""⟩, []⟩

/-! ## Helper lemmas -/

/-- The reveal prompt passed to the video job is never the empty string. -/
theorem reveal_beq_empty_false (pn pd : String) :
    ((pn ++ " cinematic reveal, " ++ pd) == "") = false := by
  rw [beq_eq_false_iff_ne]
  intro h
  have hl := congrArg String.length h
  rw [String.length_append, String.length_append] at hl
  have h1 : (" cinematic reveal, " : String).length = 19 := rfl
  have h2 : ("" : String).length = 0 := rfl
  omega

/-- `prepare_video_job` at the only call `create_job_schema` makes: the
prompt is always truthy and no image url is supplied, so the `svd` branch
is unreachable and the job is the text-to-video job for a `cogvideox`
model and the zeroscope fallback otherwise. -/
theorem prepare_video_job_reveal (mode : CreativeMode) (pn pd : String) :
    prepare_video_job mode (some (pn ++ " cinematic reveal, " ++ pd)) none =
      (if strContains mode.config.preferred_models.video "cogvideox" then
        { model := mode.config.preferred_models.video
          input :=
            [("prompt", .str ((mode.get_video_prompt (pn ++ " cinematic reveal, " ++ pd)).prompt)),
             ("num_frames", (mode.get_video_prompt (pn ++ " cinematic reveal, " ++ pd)).num_frames),
             ("fps", (mode.get_video_prompt (pn ++ " cinematic reveal, " ++ pd)).fps),
             ("guidance_scale", .int 7),
             ("num_inference_steps", .int 50)] }
      else
        { model := "anotherjesse/zeroscope-v2-xl"
          input :=
            [("prompt", .str ((mode.get_video_prompt (pn ++ " cinematic reveal, " ++ pd)).prompt)),
             ("width", .int 1024),
             ("height", .int 576),
             ("num_frames", (mode.get_video_prompt (pn ++ " cinematic reveal, " ++ pd)).num_frames),
             ("fps", (mode.get_video_prompt (pn ++ " cinematic reveal, " ++ pd)).fps)] }) := by
  simp [prepare_video_job, pyTruthy, reveal_beq_empty_false]

/-- Replacing an existing binding, then looking the key up, yields the
new value. -/
theorem lookup_map_replace (k : String) (v : Value) :
    ∀ m : List (String × Value), (m.any fun kv => kv.1 == k) = true →
      List.lookup k (m.map (fun kv => if kv.1 == k then (k, v) else kv)) = some v := by
  intro m
  induction m with
  | nil => intro h; simp at h
  | cons hd tl ih =>
    intro h
    rw [List.map_cons]
    by_cases hhd : (hd.1 == k) = true
    · rw [if_pos hhd]
      simp [List.lookup]
    · rw [if_neg hhd]
      have hne : hd.1 ≠ k := by simpa using hhd
      have hk : (k == hd.1) = false := beq_eq_false_iff_ne.mpr (Ne.symm hne)
      simp only [List.lookup, hk]
      apply ih
      rw [List.any_cons, Bool.or_eq_true] at h
      rcases h with h | h
      · exact absurd h hhd
      · exact h

/-- Appending a fresh binding, then looking the key up, yields its value. -/
theorem lookup_append_missing (k : String) (v : Value) :
    ∀ m : List (String × Value), (m.any fun kv => kv.1 == k) = false →
      List.lookup k (m ++ [(k, v)]) = some v := by
  intro m
  induction m with
  | nil => simp [List.lookup]
  | cons hd tl ih =>
    intro h
    rw [List.any_cons, Bool.or_eq_false_iff] at h
    have hk : (k == hd.1) = false := by
      rw [beq_eq_false_iff_ne]
      intro he
      rw [beq_eq_false_iff_ne] at *
      exact h.1 he.symm
    rw [List.cons_append]
    simp only [List.lookup, hk]
    exact ih h.2

/-- Python dict assignment then lookup returns the assigned value. -/
theorem lookup_setKey (m : List (String × Value)) (k : String) (v : Value) :
    List.lookup k (setKey m k v) = some v := by
  unfold setKey
  by_cases h : (m.any fun kv => kv.1 == k) = true
  · rw [if_pos h]
    exact lookup_map_replace k v m h
  · rw [if_neg h]
    rw [Bool.not_eq_true] at h
    exact lookup_append_missing k v m h

/-- Reading back the serialized image list reproduces it. -/
theorem readImageList_map (l : List ImageRecord) :
    readImageList (l.map imageRecordJson) = some l := by
  induction l with
  | nil => rfl
  | cons hd tl ih =>
    rw [List.map_cons]
    simp only [readImageList, ih]
    rfl

/-- With video requested and a `hero_video` job present, the runner makes
exactly one video invocation, with the image substitution applied exactly
when the job model name contains `"svd"` and an image was recorded. -/
theorem runVideoJob_trace (invoke : Oracle) (jobs : List (String × Job))
    (images : List ImageRecord) (vj : Job)
    (h1 : List.lookup "hero_video" jobs = some vj) :
    (runVideoJob invoke jobs true images).2.1 =
      [⟨"hero_video", vj.model,
        if strContains vj.model "svd" && !images.isEmpty then
          setKey vj.input "input_image" (.str ((images.headD ⟨"", "", ""⟩).url))
        else vj.input⟩] := by
  simp only [runVideoJob, if_true, h1]
  split <;> rfl

/-- Unfolding of the video block once the `hero_video` job is known. -/
theorem runVideoJob_cases (invoke : Oracle) (jobs : List (String × Job))
    (images : List ImageRecord) (vj : Job)
    (h1 : List.lookup "hero_video" jobs = some vj) :
    runVideoJob invoke jobs true images =
      (match invoke vj.model
          (if strContains vj.model "svd" && !images.isEmpty then
            setKey vj.input "input_image" (.str ((images.headD ⟨"", "", ""⟩).url))
          else vj.input) with
      | .ok ref =>
        (some ref,
         [⟨"hero_video", vj.model,
            if strContains vj.model "svd" && !images.isEmpty then
              setKey vj.input "input_image" (.str ((images.headD ⟨"", "", ""⟩).url))
            else vj.input⟩],
         [("hero_video", "✅ Video generated!")])
      | .falsy =>
        (none,
         [⟨"hero_video", vj.model,
            if strContains vj.model "svd" && !images.isEmpty then
              setKey vj.input "input_image" (.str ((images.headD ⟨"", "", ""⟩).url))
            else vj.input⟩],
         [])
      | .exn msg =>
        (none,
         [⟨"hero_video", vj.model,
            if strContains vj.model "svd" && !images.isEmpty then
              setKey vj.input "input_image" (.str ((images.headD ⟨"", "", ""⟩).url))
            else vj.input⟩],
         [("hero_video", "❌ Video failed: " ++ msg)])) := by
  simp only [runVideoJob, if_true, h1]

/-- Unfolding of the audio block once the `soundtrack` job is known. -/
theorem runAudioJob_cases (invoke : Oracle) (jobs : List (String × Job))
    (aj : Job) (h1 : List.lookup "soundtrack" jobs = some aj) :
    runAudioJob invoke jobs =
      (match invoke aj.model aj.input with
      | .ok ref =>
        (some ref, [⟨"soundtrack", aj.model, aj.input⟩],
         [("soundtrack", "✅ Soundtrack generated!")])
      | .falsy => (none, [⟨"soundtrack", aj.model, aj.input⟩], [])
      | .exn msg =>
        (none, [⟨"soundtrack", aj.model, aj.input⟩],
         [("soundtrack", "❌ Audio failed: " ++ msg)])) := by
  simp only [runAudioJob, h1]

/-- Which image jobs get invoked does not depend on the remote capability's
answers. -/
theorem runImageJobs_traceNames (f g : Oracle) (jobs : List (String × Job)) :
    ((runImageJobs f jobs).2.1).map Invocation.job_name
      = ((runImageJobs g jobs).2.1).map Invocation.job_name := by
  induction jobs with
  | nil => rfl
  | cons hd tl ih =>
    obtain ⟨jn, jc⟩ := hd
    simp only [runImageJobs]
    by_cases hn : strContains jn "image" = true
    · rw [if_pos hn, if_pos hn]
      cases hf : f jc.model jc.input <;> cases hg : g jc.model jc.input <;> simp [ih]
    · rw [if_neg hn, if_neg hn]
      exact ih

/-- The video invocation happens exactly when requested and present, no
matter what the capability answers or which images succeeded. -/
theorem runVideoJob_traceNames (invoke : Oracle) (jobs : List (String × Job))
    (iv : Bool) (images : List ImageRecord) :
    ((runVideoJob invoke jobs iv images).2.1).map Invocation.job_name =
      if iv && (List.lookup "hero_video" jobs).isSome then ["hero_video"] else [] := by
  cases iv
  · rfl
  · simp only [runVideoJob, if_true, Bool.true_and]
    cases hl : List.lookup "hero_video" jobs
    · simp
    · simp only [Option.isSome_some, if_true]
      split <;> rfl

/-- The audio invocation happens exactly when a `soundtrack` job is
present, no matter what the capability answers. -/
theorem runAudioJob_traceNames (invoke : Oracle) (jobs : List (String × Job)) :
    ((runAudioJob invoke jobs).2.1).map Invocation.job_name =
      if (List.lookup "soundtrack" jobs).isSome then ["soundtrack"] else [] := by
  simp only [runAudioJob]
  cases hl : List.lookup "soundtrack" jobs
  · simp
  · simp only [Option.isSome_some, if_true]
    split <;> rfl

/-- The sequence of jobs a run attempts is a function of the schema alone:
two runs of the same schema under different capabilities attempt the same
jobs in the same order. -/
theorem executeSchema_traceNames (schema : JobSchema) (iv : Bool) (ts : Int)
    (f g : Oracle) :
    traceNames (executeSchema schema iv f ts) = traceNames (executeSchema schema iv g ts) := by
  simp only [traceNames, executeSchema, List.map_append]
  rw [runImageJobs_traceNames f g, runVideoJob_traceNames, runVideoJob_traceNames,
    runAudioJob_traceNames, runAudioJob_traceNames]

/-- A raised image invocation leaves a console record under its job name. -/
theorem runImageJobs_exn_log (f : Oracle) (jobs : List (String × Job))
    (inv : Invocation) (msg : String)
    (hinv : inv ∈ (runImageJobs f jobs).2.1)
    (hf : f inv.model inv.input = .exn msg) :
    ∃ m, (inv.job_name, m) ∈ (runImageJobs f jobs).2.2 := by
  induction jobs with
  | nil => simp [runImageJobs] at hinv
  | cons hd tl ih =>
    obtain ⟨jn, jc⟩ := hd
    simp only [runImageJobs] at hinv ⊢
    by_cases hn : strContains jn "image" = true
    · rw [if_pos hn] at hinv ⊢
      revert hinv
      cases hres : f jc.model jc.input with
      | ok url =>
        intro hinv
        rcases List.mem_cons.mp hinv with he | hrest
        · rw [he] at hf
          exact absurd (hres.symm.trans hf) (by simp)
        · obtain ⟨m, hm⟩ := ih hrest
          exact ⟨m, List.mem_cons_of_mem _ hm⟩
      | falsy =>
        intro hinv
        rcases List.mem_cons.mp hinv with he | hrest
        · rw [he] at hf
          exact absurd (hres.symm.trans hf) (by simp)
        · obtain ⟨m, hm⟩ := ih hrest
          exact ⟨m, List.mem_cons_of_mem _ hm⟩
      | exn m0 =>
        intro hinv
        rcases List.mem_cons.mp hinv with he | hrest
        · refine ⟨"❌ (" ++ m0.take 30 ++ "...)", ?_⟩
          rw [he]
          exact List.mem_cons_self _ _
        · obtain ⟨m, hm⟩ := ih hrest
          exact ⟨m, List.mem_cons_of_mem _ hm⟩
    · rw [if_neg hn] at hinv ⊢
      exact ih hinv

/-- A raised video invocation leaves a console record under its job name. -/
theorem runVideoJob_exn_log (f : Oracle) (jobs : List (String × Job))
    (iv : Bool) (images : List ImageRecord) (inv : Invocation) (msg : String)
    (hinv : inv ∈ (runVideoJob f jobs iv images).2.1)
    (hf : f inv.model inv.input = .exn msg) :
    ∃ m, (inv.job_name, m) ∈ (runVideoJob f jobs iv images).2.2 := by
  cases iv
  · simp [runVideoJob] at hinv
  · cases hl : List.lookup "hero_video" jobs with
    | none => rw [runVideoJob] at hinv; simp [hl] at hinv
    | some vj =>
      rw [runVideoJob_cases f jobs images vj hl] at hinv ⊢
      revert hinv
      cases hres : f vj.model
          (if strContains vj.model "svd" && !images.isEmpty then
            setKey vj.input "input_image" (.str ((images.headD ⟨"", "", ""⟩).url))
          else vj.input) with
      | ok url =>
        intro hinv
        have he := List.mem_singleton.mp hinv
        rw [he] at hf
        exact absurd (hres.symm.trans hf) (by simp)
      | falsy =>
        intro hinv
        have he := List.mem_singleton.mp hinv
        rw [he] at hf
        exact absurd (hres.symm.trans hf) (by simp)
      | exn m0 =>
        intro hinv
        have he := List.mem_singleton.mp hinv
        refine ⟨"❌ Video failed: " ++ m0, ?_⟩
        rw [he]
        exact List.mem_cons_self _ _

/-- A raised audio invocation leaves a console record under its job name. -/
theorem runAudioJob_exn_log (f : Oracle) (jobs : List (String × Job))
    (inv : Invocation) (msg : String)
    (hinv : inv ∈ (runAudioJob f jobs).2.1)
    (hf : f inv.model inv.input = .exn msg) :
    ∃ m, (inv.job_name, m) ∈ (runAudioJob f jobs).2.2 := by
  cases hl : List.lookup "soundtrack" jobs with
  | none => rw [runAudioJob] at hinv; simp [hl] at hinv
  | some aj =>
    rw [runAudioJob_cases f jobs aj hl] at hinv ⊢
    revert hinv
    cases hres : f aj.model aj.input with
    | ok url =>
      intro hinv
      have he := List.mem_singleton.mp hinv
      rw [he] at hf
      exact absurd (hres.symm.trans hf) (by simp)
    | falsy =>
      intro hinv
      have he := List.mem_singleton.mp hinv
      rw [he] at hf
      exact absurd (hres.symm.trans hf) (by simp)
    | exn m0 =>
      intro hinv
      have he := List.mem_singleton.mp hinv
      refine ⟨"❌ Audio failed: " ++ m0, ?_⟩
      rw [he]
      exact List.mem_cons_self _ _

/-- A falsy result for an invoked image job leaves its `❌` console record. -/
theorem runImageJobs_falsy_log (f : Oracle) (jobs : List (String × Job))
    (jn : String) (jc : Job)
    (hmem : (jn, jc) ∈ jobs) (hn : strContains jn "image" = true)
    (hf : f jc.model jc.input = .falsy) :
    (jn, "❌") ∈ (runImageJobs f jobs).2.2 := by
  induction jobs with
  | nil => simp at hmem
  | cons hd tl ih =>
    obtain ⟨jn0, jc0⟩ := hd
    simp only [runImageJobs]
    rcases List.mem_cons.mp hmem with he | hrest
    · injection he with he1 he2
      subst he1; subst he2
      rw [if_pos hn, hf]
      exact List.mem_cons_self _ _
    · by_cases hn0 : strContains jn0 "image" = true
      · rw [if_pos hn0]
        cases hres : f jc0.model jc0.input <;>
          exact List.mem_cons_of_mem _ (ih hrest)
      · rw [if_neg hn0]
        exact ih hrest

/-! ## Claim theorems -/

/-- Claim C1 (code bug). The claim says every image job in the schema
(`hero_image`, `detail_shot`, `lifestyle_shot`) is invoked before the
video job. Evaluating the runner on the compiled parallax-nocturne
HaloOne schema with an always-succeeding capability shows the run invokes
only `hero_image`, then `hero_video`, then `soundtrack` — the filter
`"image" in job_name` matches none of `detail_shot`, `lifestyle_shot`,
even though the compiled schema contains all five jobs. -/
theorem c1_only_hero_image_invoked :
    (run_mode_campaign "parallax_nocturne" "HaloOne" "wireless headphones" true allOkOracle 0).map
        traceNames = some ["hero_image", "hero_video", "soundtrack"]
    ∧ (create_job_schema "parallax_nocturne" "HaloOne" "wireless headphones").toOption.map
        (fun s => s.jobs.map Prod.fst)
      = some ["hero_image", "detail_shot", "lifestyle_shot", "hero_video", "soundtrack"] :=
  ⟨rfl, rfl⟩

/-- Claim C2: for every mode name in the catalog and any product name and
description, compilation succeeds and yields exactly the five job names
`hero_image`, `detail_shot`, `lifestyle_shot`, `hero_video`, `soundtrack`,
each with a non-empty model identifier and a non-empty input map. -/
theorem c2_all_modes_compile_five_jobs (mode_name : String)
    (h : mode_name ∈ studio_modes_init.list_modes) (pn pd : String) :
    ∃ s, create_job_schema mode_name pn pd = .ok s
      ∧ s.jobs.map Prod.fst
          = ["hero_image", "detail_shot", "lifestyle_shot", "hero_video", "soundtrack"]
      ∧ (s.jobs.all fun j => !(j.2.model == "") && !j.2.input.isEmpty) = true := by
  have h2 : mode_name ∈ ["parallax_nocturne", "rust_luxe_baroque", "kinetic_typography",
      "webgl_dreams", "mineral_futurism", "soft_brutalism"] := h
  fin_cases h2 <;>
    exact ⟨_, rfl, rfl, by rw [prepare_video_job_reveal]; rfl⟩

/-- Witness for claim C2 at the parallax-nocturne HaloOne campaign. -/
theorem c2_all_modes_compile_five_jobs_witness :
    ("parallax_nocturne" ∈ studio_modes_init.list_modes)
    ∧ ∃ s, create_job_schema "parallax_nocturne" "HaloOne" "wireless headphones" = .ok s
      ∧ s.jobs.map Prod.fst
          = ["hero_image", "detail_shot", "lifestyle_shot", "hero_video", "soundtrack"]
      ∧ (s.jobs.all fun j => !(j.2.model == "") && !j.2.input.isEmpty) = true :=
  ⟨by decide,
   c2_all_modes_compile_five_jobs "parallax_nocturne" (by decide) "HaloOne" "wireless headphones"⟩

/-- Claim C3: compiling with a mode name outside the catalog fails with
the unknown-mode error; no schema value is produced (the error carries no
schema, and the jobs are only built in the success branch). -/
theorem c3_unknown_mode_error (mode_name pn pd : String)
    (h : studio_modes_init.get_mode mode_name = none) :
    create_job_schema mode_name pn pd = .error (.UnknownMode mode_name) := by
  simp only [create_job_schema, h]

/-- Witness for claim C3 at the unknown mode name `vaporwave`. -/
theorem c3_unknown_mode_error_witness :
    studio_modes_init.get_mode "vaporwave" = none
    ∧ create_job_schema "vaporwave" "HaloOne" "wireless headphones"
        = .error (.UnknownMode "vaporwave") :=
  ⟨rfl, c3_unknown_mode_error "vaporwave" "HaloOne" "wireless headphones" rfl⟩

/-- Claim C4: for every compiled image job of every catalog mode, a
preferred image model containing `"flux"` yields an input with
`aspect_ratio` and `output_quality` keys and without `negative_prompt`;
one containing `"seedream"` or `"ideogram"` yields an input with
`negative_prompt`, `width` and `height` keys and without `aspect_ratio`. -/
theorem c4_image_input_shape_by_family (mode_name : String)
    (h : mode_name ∈ studio_modes_init.list_modes)
    (mode : CreativeMode) (hm : studio_modes_init.get_mode mode_name = some mode)
    (pn pd jn : String) (hjn : jn ∈ ["hero_image", "detail_shot", "lifestyle_shot"])
    (job : Job)
    (hj : (create_job_schema mode_name pn pd).toOption.bind
      (fun s => List.lookup jn s.jobs) = some job) :
    (strContains mode.config.preferred_models.image "flux" = true →
      hasKeyB job.input "aspect_ratio" = true ∧ hasKeyB job.input "output_quality" = true
        ∧ hasKeyB job.input "negative_prompt" = false)
    ∧ ((strContains mode.config.preferred_models.image "seedream" = true
          ∨ strContains mode.config.preferred_models.image "ideogram" = true) →
      hasKeyB job.input "negative_prompt" = true ∧ hasKeyB job.input "width" = true
        ∧ hasKeyB job.input "height" = true ∧ hasKeyB job.input "aspect_ratio" = false) := by
  have h2 : mode_name ∈ ["parallax_nocturne", "rust_luxe_baroque", "kinetic_typography",
      "webgl_dreams", "mineral_futurism", "soft_brutalism"] := h
  fin_cases h2 <;> fin_cases hjn <;>
    (injection hm with hm1; subst hm1; injection hj with hj1; subst hj1;
     first
       | exact ⟨fun _ => ⟨rfl, rfl, rfl⟩, fun hcon => absurd hcon (by decide)⟩
       | exact ⟨fun hf => absurd hf (by decide), fun _ => ⟨rfl, rfl, rfl, rfl⟩⟩)

/-- Witness for claim C4 at the parallax-nocturne `hero_image` job (a
`flux` family model). -/
theorem c4_image_input_shape_by_family_witness :
    hasKeyB (prepare_image_job parallax_nocturne_mode "A product hero shot, B" "16:9").input
        "aspect_ratio" = true
    ∧ hasKeyB (prepare_image_job parallax_nocturne_mode "A product hero shot, B" "16:9").input
        "negative_prompt" = false := by
  have h := (c4_image_input_shape_by_family "parallax_nocturne" (by decide)
      parallax_nocturne_mode rfl "A" "B" "hero_image" (by decide)
      (prepare_image_job parallax_nocturne_mode "A product hero shot, B" "16:9") rfl).1
    (by decide)
  exact ⟨h.1, h.2.2⟩

/-- Claim C5 counterexample. The claim says an svd-family preferred video
model yields a `hero_video` job with that model and an `input_image`
placeholder. Compiling `rust_luxe_baroque` (whose preferred video model is
`"svd"`) yields the zeroscope fallback job with no `input_image` key:
`create_job_schema` calls `prepare_video_job` without an image url, so the
svd branch never fires at compile time. -/
theorem c5_video_family_counterexample :
    ((create_job_schema "rust_luxe_baroque" "HaloOne" "wireless headphones").toOption.map
        (fun s => (List.lookup "hero_video" s.jobs).map
          (fun j => (j.model, hasKeyB j.input "input_image"))))
      = some (some ("anotherjesse/zeroscope-v2-xl", false))
    ∧ (studio_modes_init.get_mode "rust_luxe_baroque").map
        (fun m => m.config.preferred_models.video) = some "svd" :=
  ⟨rfl, rfl⟩

/-- Claim C5 as amended: the compiled `hero_video` job is text-to-video
keyed on the reveal prompt when the preferred video model contains
`"cogvideox"`; for every other preferred video model — including the
image-conditioned `"svd"` family, since compilation supplies no image
reference — it is the generic zeroscope fallback with width/height/frame
defaults. -/
theorem c5_video_family_amended (mode_name : String) (mode : CreativeMode)
    (hm : studio_modes_init.get_mode mode_name = some mode)
    (pn pd : String) (s : JobSchema)
    (hs : create_job_schema mode_name pn pd = .ok s) :
    List.lookup "hero_video" s.jobs =
      some (if strContains mode.config.preferred_models.video "cogvideox" then
        { model := mode.config.preferred_models.video
          input :=
            [("prompt", .str ((mode.get_video_prompt (pn ++ " cinematic reveal, " ++ pd)).prompt)),
             ("num_frames", (mode.get_video_prompt (pn ++ " cinematic reveal, " ++ pd)).num_frames),
             ("fps", (mode.get_video_prompt (pn ++ " cinematic reveal, " ++ pd)).fps),
             ("guidance_scale", .int 7),
             ("num_inference_steps", .int 50)] }
      else
        { model := "anotherjesse/zeroscope-v2-xl"
          input :=
            [("prompt", .str ((mode.get_video_prompt (pn ++ " cinematic reveal, " ++ pd)).prompt)),
             ("width", .int 1024),
             ("height", .int 576),
             ("num_frames", (mode.get_video_prompt (pn ++ " cinematic reveal, " ++ pd)).num_frames),
             ("fps", (mode.get_video_prompt (pn ++ " cinematic reveal, " ++ pd)).fps)] }) := by
  simp only [create_job_schema, hm] at hs
  injection hs with hs1
  subst hs1
  rw [← prepare_video_job_reveal]
  rfl

/-- Witness for the amended claim C5: the rust-luxe-baroque schema's
`hero_video` job is the concrete zeroscope fallback. -/
theorem c5_video_family_amended_witness :
    List.lookup "hero_video" rustLuxeSchema.jobs =
      some ⟨"anotherjesse/zeroscope-v2-xl",
        [("prompt", .str "HaloOne cinematic reveal, wireless headphones, slow reveal, texture focus, luxury brand pacing"),
         ("width", .int 1024),
         ("height", .int 576),
         ("num_frames", .int 60),
         ("fps", .int 30)]⟩ :=
  c5_video_family_amended "rust_luxe_baroque" rust_luxe_baroque_mode rfl
    "HaloOne" "wireless headphones" rustLuxeSchema rfl

/-- Claim C6 counterexample. The claim says an image-conditioned
`hero_video` job is skipped entirely when no image job succeeded. Running
a schema whose `hero_video` job has an svd model and an `input_image`
placeholder, with a capability under which every invocation raises, the
run records no image — yet the video job is still invoked, with its
original input whose `input_image` is the empty placeholder. -/
theorem c6_video_dependency_counterexample :
    (executeSchema svdDemoSchema true failAllOracle 0).result.images = []
    ∧ (⟨"hero_video", "svd", svdDemoVideoJob.input⟩ : Invocation)
        ∈ (executeSchema svdDemoSchema true failAllOracle 0).trace
    ∧ List.lookup "input_image" svdDemoVideoJob.input = some (.str "")
    ∧ strContains "svd" "svd" = true := by
  refine ⟨rfl, ?_, rfl, rfl⟩
  decide

/-- Claim C6 as amended: for an svd-model `hero_video` job, when no image
was recorded the job is still invoked, with its original compiled input
(the run does not fail — the invocation is one entry of the trace); when
at least one image was recorded, the invocation carries the first recorded
image's reference under `input_image`. (Schemas produced by
`create_job_schema` never contain an svd-model `hero_video` job — see
claim C5 — so in full runs the substitution never fires.) -/
theorem c6_video_dependency_amended (schema : JobSchema) (invoke : Oracle)
    (ts : Int) (vj : Job)
    (h1 : List.lookup "hero_video" schema.jobs = some vj)
    (h2 : strContains vj.model "svd" = true) :
    ((executeSchema schema true invoke ts).result.images = [] →
      (⟨"hero_video", vj.model, vj.input⟩ : Invocation)
        ∈ (executeSchema schema true invoke ts).trace)
    ∧ ((executeSchema schema true invoke ts).result.images ≠ [] →
      ∃ vin, (⟨"hero_video", vj.model, vin⟩ : Invocation)
          ∈ (executeSchema schema true invoke ts).trace
        ∧ List.lookup "input_image" vin =
            some (.str (((executeSchema schema true invoke ts).result.images.headD
              emptyImageRecord).url))) := by
  have ht : (executeSchema schema true invoke ts).trace =
      (runImageJobs invoke schema.jobs).2.1
        ++ ((runVideoJob invoke schema.jobs true (runImageJobs invoke schema.jobs).1).2.1
              ++ (runAudioJob invoke schema.jobs).2.1) := by
    simp [executeSchema, List.append_assoc]
  have himg : (executeSchema schema true invoke ts).result.images =
      (runImageJobs invoke schema.jobs).1 := rfl
  constructor
  · intro h0
    rw [himg] at h0
    have hv : (runVideoJob invoke schema.jobs true (runImageJobs invoke schema.jobs).1).2.1 =
        [⟨"hero_video", vj.model, vj.input⟩] := by
      rw [runVideoJob_trace invoke schema.jobs _ vj h1]
      simp [h0, h2]
    rw [ht, hv]
    simp
  · intro h0
    rw [himg] at h0
    have hne : (runImageJobs invoke schema.jobs).1.isEmpty = false := by
      cases hc : (runImageJobs invoke schema.jobs).1 with
      | nil => exact absurd hc h0
      | cons a l => rfl
    refine ⟨setKey vj.input "input_image"
      (.str (((runImageJobs invoke schema.jobs).1.headD ⟨"", "", ""⟩).url)), ?_, ?_⟩
    · have hv : (runVideoJob invoke schema.jobs true (runImageJobs invoke schema.jobs).1).2.1 =
          [⟨"hero_video", vj.model, setKey vj.input "input_image"
            (.str (((runImageJobs invoke schema.jobs).1.headD ⟨"", "", ""⟩).url))⟩] := by
        rw [runVideoJob_trace invoke schema.jobs _ vj h1]
        simp [h2, hne]
      rw [ht, hv]
      simp
    · exact lookup_setKey _ _ _

/-- Witness for the amended claim C6: with every invocation raising, the
svd demo schema records no image and its video job is still invoked with
its original input. -/
theorem c6_video_dependency_amended_witness :
    (⟨"hero_video", "svd", svdDemoVideoJob.input⟩ : Invocation)
      ∈ (executeSchema svdDemoSchema true failAllOracle 0).trace :=
  (c6_video_dependency_amended svdDemoSchema failAllOracle 0 svdDemoVideoJob rfl rfl).1 rfl

/-- Every invocation made by the image loop carries a job name containing
the substring `"image"`. -/
theorem runImageJobs_mem_name (f : Oracle) (jobs : List (String × Job))
    (inv : Invocation) (hinv : inv ∈ (runImageJobs f jobs).2.1) :
    strContains inv.job_name "image" = true := by
  induction jobs with
  | nil => simp [runImageJobs] at hinv
  | cons hd tl ih =>
    obtain ⟨jn, jc⟩ := hd
    simp only [runImageJobs] at hinv
    by_cases hn : strContains jn "image" = true
    · rw [if_pos hn] at hinv
      revert hinv
      cases hres : f jc.model jc.input <;>
        (intro hinv
         rcases List.mem_cons.mp hinv with he | hrest
         · rw [he]; exact hn
         · exact ih hrest)
    · rw [if_neg hn] at hinv
      exact ih hinv

/-- The video block's only invocation carries the job name `hero_video`. -/
theorem runVideoJob_mem_name (f : Oracle) (jobs : List (String × Job))
    (iv : Bool) (images : List ImageRecord) (inv : Invocation)
    (hinv : inv ∈ (runVideoJob f jobs iv images).2.1) :
    inv.job_name = "hero_video" := by
  cases iv
  · simp [runVideoJob] at hinv
  · cases hl : List.lookup "hero_video" jobs with
    | none => rw [runVideoJob] at hinv; simp [hl] at hinv
    | some vj =>
      rw [runVideoJob_cases f jobs images vj hl] at hinv
      revert hinv
      cases hres : f vj.model
          (if strContains vj.model "svd" && !images.isEmpty then
            setKey vj.input "input_image" (.str ((images.headD ⟨"", "", ""⟩).url))
          else vj.input) <;>
        (intro hinv
         rw [List.mem_singleton.mp hinv])

/-- The audio block's only invocation carries the job name `soundtrack`. -/
theorem runAudioJob_mem_name (f : Oracle) (jobs : List (String × Job))
    (inv : Invocation) (hinv : inv ∈ (runAudioJob f jobs).2.1) :
    inv.job_name = "soundtrack" := by
  cases hl : List.lookup "soundtrack" jobs with
  | none => rw [runAudioJob] at hinv; simp [hl] at hinv
  | some aj =>
    rw [runAudioJob_cases f jobs aj hl] at hinv
    revert hinv
    cases hres : f aj.model aj.input <;>
      (intro hinv
       rw [List.mem_singleton.mp hinv])

/-- A falsy result for the video invocation leaves the video reference
unset (and, per the source's `if video_output:` with no else, no console
record is produced). -/
theorem runVideoJob_falsy_none (f : Oracle) (jobs : List (String × Job))
    (iv : Bool) (images : List ImageRecord) (inv : Invocation)
    (hinv : inv ∈ (runVideoJob f jobs iv images).2.1)
    (hf : f inv.model inv.input = .falsy) :
    (runVideoJob f jobs iv images).1 = none := by
  cases iv
  · rfl
  · cases hl : List.lookup "hero_video" jobs with
    | none => rw [runVideoJob]; simp [hl]
    | some vj =>
      rw [runVideoJob_cases f jobs images vj hl] at hinv ⊢
      revert hinv
      cases hres : f vj.model
          (if strContains vj.model "svd" && !images.isEmpty then
            setKey vj.input "input_image" (.str ((images.headD ⟨"", "", ""⟩).url))
          else vj.input) with
      | ok url =>
        intro hinv
        rw [List.mem_singleton.mp hinv] at hf
        exact absurd (hres.symm.trans hf) (by simp)
      | falsy => intro hinv; rfl
      | exn m0 => intro hinv; rfl

/-- A falsy result for the audio invocation leaves the audio reference
unset (and, per the source's `if audio_output:` with no else, no console
record is produced). -/
theorem runAudioJob_falsy_none (f : Oracle) (jobs : List (String × Job))
    (inv : Invocation) (hinv : inv ∈ (runAudioJob f jobs).2.1)
    (hf : f inv.model inv.input = .falsy) :
    (runAudioJob f jobs).1 = none := by
  cases hl : List.lookup "soundtrack" jobs with
  | none => rw [runAudioJob]; simp [hl]
  | some aj =>
    rw [runAudioJob_cases f jobs aj hl] at hinv ⊢
    revert hinv
    cases hres : f aj.model aj.input with
    | ok url =>
      intro hinv
      rw [List.mem_singleton.mp hinv] at hf
      exact absurd (hres.symm.trans hf) (by simp)
    | falsy => intro hinv; rfl
    | exn m0 => intro hinv; rfl

/-- Claim C7 counterexample. The claim says an exception *or falsy result*
of any single job invocation is recorded per job. Running the compiled
parallax-nocturne schema under a capability whose `soundtrack` call
returns a falsy value: the soundtrack job is invoked (last trace entry)
and its result is falsy, yet the console record holds entries only for
`hero_image` and `hero_video` — no per-job record is made for the falsy
soundtrack invocation; only the audio reference stays null. -/
theorem c7_failure_recording_counterexample :
    traceNames (executeSchema parallaxSchema true falsySoundtrackOracle 0)
      = ["hero_image", "hero_video", "soundtrack"]
    ∧ falsySoundtrackOracle
        ((executeSchema parallaxSchema true falsySoundtrackOracle 0).trace.getLastD
          ⟨"", "", []⟩).model
        ((executeSchema parallaxSchema true falsySoundtrackOracle 0).trace.getLastD
          ⟨"", "", []⟩).input
        = .falsy
    ∧ (executeSchema parallaxSchema true falsySoundtrackOracle 0).log.map Prod.fst
      = ["hero_image", "hero_video"]
    ∧ (executeSchema parallaxSchema true falsySoundtrackOracle 0).result.audio = none :=
  ⟨rfl, rfl, rfl, rfl⟩

/-- Claim C7 as amended: job invocations are independent — which jobs a
run attempts (and their order) is the same under any two capabilities, so
no raised or falsy invocation stops later jobs. Every raised invocation
leaves a per-job console record, and a falsy result of an invoked image
job leaves its `❌` record; a falsy video or audio result, however, is not
recorded per job — it only leaves the corresponding result field null. -/
theorem c7_failure_isolation_amended (schema : JobSchema) (include_video : Bool)
    (ts : Int) (f g : Oracle) :
    traceNames (executeSchema schema include_video f ts)
      = traceNames (executeSchema schema include_video g ts)
    ∧ (∀ inv ∈ (executeSchema schema include_video f ts).trace, ∀ msg,
        f inv.model inv.input = .exn msg →
        ∃ m, (inv.job_name, m) ∈ (executeSchema schema include_video f ts).log)
    ∧ (∀ jn jc, (jn, jc) ∈ schema.jobs → strContains jn "image" = true →
        f jc.model jc.input = .falsy →
        (jn, "❌") ∈ (executeSchema schema include_video f ts).log)
    ∧ (∀ inv ∈ (executeSchema schema include_video f ts).trace,
        inv.job_name = "hero_video" → f inv.model inv.input = .falsy →
        (executeSchema schema include_video f ts).result.video = none)
    ∧ (∀ inv ∈ (executeSchema schema include_video f ts).trace,
        inv.job_name = "soundtrack" → f inv.model inv.input = .falsy →
        (executeSchema schema include_video f ts).result.audio = none) := by
  have ht : (executeSchema schema include_video f ts).trace =
      (runImageJobs f schema.jobs).2.1
        ++ (runVideoJob f schema.jobs include_video (runImageJobs f schema.jobs).1).2.1
        ++ (runAudioJob f schema.jobs).2.1 := rfl
  have hlg : (executeSchema schema include_video f ts).log =
      (runImageJobs f schema.jobs).2.2
        ++ (runVideoJob f schema.jobs include_video (runImageJobs f schema.jobs).1).2.2
        ++ (runAudioJob f schema.jobs).2.2 := rfl
  refine ⟨executeSchema_traceNames schema include_video ts f g, ?_, ?_, ?_, ?_⟩
  · intro inv hinv msg hf
    rw [ht] at hinv
    rw [hlg]
    rcases List.mem_append.mp hinv with h1 | h2
    · rcases List.mem_append.mp h1 with h1a | h1b
      · obtain ⟨m, hm⟩ := runImageJobs_exn_log f schema.jobs inv msg h1a hf
        exact ⟨m, List.mem_append_left _ (List.mem_append_left _ hm)⟩
      · obtain ⟨m, hm⟩ := runVideoJob_exn_log f schema.jobs include_video _ inv msg h1b hf
        exact ⟨m, List.mem_append_left _ (List.mem_append_right _ hm)⟩
    · obtain ⟨m, hm⟩ := runAudioJob_exn_log f schema.jobs inv msg h2 hf
      exact ⟨m, List.mem_append_right _ hm⟩
  · intro jn jc hmem hn hffalsy
    have hm := runImageJobs_falsy_log f schema.jobs jn jc hmem hn hffalsy
    rw [hlg]
    exact List.mem_append_left _ (List.mem_append_left _ hm)
  · intro inv hinv hname hf
    rw [ht] at hinv
    rcases List.mem_append.mp hinv with h1 | h2
    · rcases List.mem_append.mp h1 with h1a | h1b
      · have := runImageJobs_mem_name f schema.jobs inv h1a
        rw [hname] at this
        exact absurd this (by decide)
      · exact runVideoJob_falsy_none f schema.jobs include_video _ inv h1b hf
    · have := runAudioJob_mem_name f schema.jobs inv h2
      rw [hname] at this
      exact absurd this (by decide)
  · intro inv hinv hname hf
    rw [ht] at hinv
    rcases List.mem_append.mp hinv with h1 | h2
    · rcases List.mem_append.mp h1 with h1a | h1b
      · have := runImageJobs_mem_name f schema.jobs inv h1a
        rw [hname] at this
        exact absurd this (by decide)
      · have := runVideoJob_mem_name f schema.jobs include_video _ inv h1b
        rw [hname] at this
        exact absurd this (by decide)
    · exact runAudioJob_falsy_none f schema.jobs inv h2 hf

/-- Witness for the amended claim C7: with `hero_image` raising, the
parallax schema run attempts the same jobs as an all-success run and the
failure is logged under `hero_image`; with the soundtrack call returning
a falsy value, the audio reference stays null. -/
theorem c7_failure_isolation_amended_witness :
    traceNames (executeSchema parallaxSchema true failHeroOracle 0)
      = traceNames (executeSchema parallaxSchema true allOkOracle 0)
    ∧ (∃ m, ("hero_image", m) ∈ (executeSchema parallaxSchema true failHeroOracle 0).log)
    ∧ (executeSchema parallaxSchema true falsySoundtrackOracle 0).result.audio = none := by
  have h1 := c7_failure_isolation_amended parallaxSchema true 0 failHeroOracle allOkOracle
  have h2 := c7_failure_isolation_amended parallaxSchema true 0 falsySoundtrackOracle allOkOracle
  refine ⟨h1.1, ?_, ?_⟩
  · exact h1.2.1 ((executeSchema parallaxSchema true failHeroOracle 0).trace.headD ⟨"", "", []⟩)
      (List.mem_cons_self _ _) "boom" rfl
  · exact h2.2.2.2.2
      ((executeSchema parallaxSchema true falsySoundtrackOracle 0).trace.getLastD ⟨"", "", []⟩)
      (List.mem_cons_of_mem _ (List.mem_cons_of_mem _ (List.mem_cons_self _ _))) rfl rfl

/-- Claim C8 counterexample. The claim says the compiled `hero_image`
model equals the resolved hosted identifier of the `flux_dev` family
(`black-forest-labs/flux-dev`, per the director's model table). The
compiled job's model is the unresolved family key `flux_dev` itself. -/
theorem c8_hero_image_scenario_counterexample :
    ((create_job_schema "parallax_nocturne" "HaloOne" "wireless headphones").toOption.bind
        (fun s => List.lookup "hero_image" s.jobs)).map Job.model = some "flux_dev"
    ∧ List.lookup "flux_dev" creative_director_models = some "black-forest-labs/flux-dev"
    ∧ ("flux_dev" : String) ≠ "black-forest-labs/flux-dev" :=
  ⟨rfl, rfl, by decide⟩

set_option maxRecDepth 4096 in
/-- Claim C8 as amended: compiling `parallax_nocturne` for HaloOne yields
a `hero_image` job whose prompt starts with
`"HaloOne product hero shot, wireless headphones"` and ends with the
mode's prompt-kernel string, and whose model field is the mode's
configured image-model family key `"flux_dev"`, not a resolved hosted
identifier. -/
theorem c8_hero_image_scenario_amended :
    ((create_job_schema "parallax_nocturne" "HaloOne" "wireless headphones").toOption.bind
        (fun s => List.lookup "hero_image" s.jobs)).map
        (fun j => (j.model,
          startsWithB (inputGetPrompt j.input) "HaloOne product hero shot, wireless headphones",
          endsWithB (inputGetPrompt j.input) parallax_nocturne_mode.config.prompt_kernel))
      = some ("flux_dev", true, true) := rfl

/-- Claim C9: writing a campaign result to the persisted metadata object
and reading the `images`, `video` and `audio` fields back reproduces the
ordered image record list, the video reference and the audio reference,
with absent references preserved as `null`. -/
theorem c9_metadata_roundtrip (r : CampaignResult) (mode : CreativeMode) :
    readImages (save_mode_campaign_metadata r mode) = some r.images
    ∧ readOptStr (save_mode_campaign_metadata r mode) "video" = some r.video
    ∧ readOptStr (save_mode_campaign_metadata r mode) "audio" = some r.audio := by
  obtain ⟨mo, pr, de, si, im, vid, au, ts⟩ := r
  refine ⟨?_, ?_, ?_⟩
  · exact readImageList_map im
  · cases vid <;> rfl
  · cases au <;> rfl

/-- Claim C10: for every catalog mode whose preferred audio model contains
`"musicgen"`, and any product name and description, the compiled
`soundtrack` prompt contains the mode's audio-character string twice —
once inserted by the schema builder's base prompt and once appended by
`get_audio_prompt`. -/
theorem c10_audio_character_duplicated (mode_name : String) (mode : CreativeMode)
    (hm : studio_modes_init.get_mode mode_name = some mode)
    (hmg : strContains mode.config.preferred_models.audio "musicgen" = true)
    (pn pd : String) (s : JobSchema)
    (hs : create_job_schema mode_name pn pd = .ok s)
    (aj : Job) (ha : List.lookup "soundtrack" s.jobs = some aj) :
    occursTwice (inputGetPrompt aj.input) mode.config.audio_character := by
  simp only [create_job_schema, hm] at hs
  injection hs with hs1
  subst hs1
  injection ha with ha1
  subst ha1
  simp only [prepare_audio_job, hmg, if_true]
  refine ⟨"product launch music for " ++ pn ++ ", ", ", ", "", ?_⟩
  show (("product launch music for " ++ pn ++ ", " ++ mode.config.audio_character)
      ++ ", " ++ mode.config.audio_character) = _
  simp [String.append_assoc]

/-- Witness for claim C10 at the parallax-nocturne mode. -/
theorem c10_audio_character_duplicated_witness :
    studio_modes_init.get_mode "parallax_nocturne" = some parallax_nocturne_mode
    ∧ occursTwice
        (inputGetPrompt (prepare_audio_job parallax_nocturne_mode
          ("product launch music for " ++ "HaloOne" ++ ", "
            ++ parallax_nocturne_mode.config.audio_character)).input)
        parallax_nocturne_mode.config.audio_character :=
  ⟨rfl,
   c10_audio_character_duplicated "parallax_nocturne" parallax_nocturne_mode rfl rfl
     "HaloOne" "wireless headphones" _ rfl _ rfl⟩

end CreativePipeline
